import Mathlib

/-!
Shallow embedding of the `typing-deprecated-pep` examples: the runtime
deprecation wrappers of `examples/callables.py` and `examples/factories.py`,
the qualifier application of `examples/typing_deprecated.py`, and the
placement-validation rules that the specification describes for the
`Deprecated` qualifier.

Calling a Python construct is modelled as a pure function from an argument
to the pair of (the list of emissions produced, in order) and (either an
ordinary result or a raised exception).
-/

/-- Warning categories passed to the host sink (`warnings.warn`); the code
under study only ever passes `DeprecationWarning`. -/
inductive WarningCategory where
  | deprecationWarning
deriving DecidableEq, Repr

/-- One observable emission of a wrapped construct: either a call of the host
warning sink `warnings.warn(message, cat, stacklevel)`, or a line printed to
standard output (the channel used by `actual_deprecator` in
`examples/factories.py`). -/
inductive Emission where
  | warn (message : String) (cat : WarningCategory) (stacklevel : Int)
  | stdout (line : String)
deriving DecidableEq, Repr

/-- A Python exception: the builtin failures the model needs, plus arbitrary
user exceptions identified by kind and payload. -/
inductive PyError where
  | typeError (msg : String)
  | indexError (msg : String)
  | exn (kind : String) (payload : String)
deriving DecidableEq, Repr

/-- Runtime values usable as parameter defaults and attribute values. -/
inductive PyValue where
  | intVal (n : Int)
  | strVal (s : String)
  | boolVal (b : Bool)
  | noneVal
deriving DecidableEq, Repr

/-- Type expressions as they occur in the annotations of the example files:
builtin types, `Any`, `None`, callable types, `type[X]` class-object types,
`Optional[X]`, `Final[X]`, `ClassVar[X]`, and type variables with or without
an upper bound (parameter lists of callables are elided; only the presence of
callability matters to the rules under study). -/
inductive TypeExpr where
  | intTy
  | strTy
  | anyTy
  | noneTy
  | callableTy (ret : TypeExpr)
  | typeObj (arg : TypeExpr)
  | optionalTy (arg : TypeExpr)
  | finalTy (arg : TypeExpr)
  | classVarTy (arg : TypeExpr)
  | typeVarUnbounded (name : String)
  | typeVarBounded (name : String) (bound : TypeExpr)
deriving DecidableEq, Repr

/-- Parameter kinds as reported by `inspect.signature`. -/
inductive ParamKind where
  | positionalOnly
  | positionalOrKeyword
  | varPositional
  | keywordOnly
  | varKeyword
deriving DecidableEq, Repr

/-- One parameter of an introspected signature: its name, kind, optional
default value and optional annotation. -/
structure PyParam where
  name : String
  kind : ParamKind
  default : Option PyValue
  annot : Option TypeExpr
deriving DecidableEq, Repr

/-- An introspected call signature (`inspect.Signature`): the ordered
parameters and the return annotation. -/
structure PySignature where
  params : List PyParam
  retAnnot : Option TypeExpr
deriving DecidableEq, Repr

/-- A Python function object as the wrappers see it: the introspection
metadata that `functools.wraps` copies (`__qualname__`, `__name__`,
`__doc__`, `__module__`), the signature reported by `inspect.signature`, and
the call behavior. -/
structure PyFunction (α β : Type) where
  qualname : String
  name : String
  doc : Option String
  module : String
  signature : PySignature
  call : α → List Emission × Except PyError β

variable {α β γ : Type} {T : Type}

/-- Modelled from the spec: `find_stacklevel` is declared in
`examples/callables.py` with an elided body; the spec treats the stacklevel
provider as an opaque external collaborator whose output the engine never
validates, so the model fixes an arbitrary integer. -/
def find_stacklevel : Int := 0

/-- Model of `issue_deprecation_warning` of `examples/callables.py`: it calls
`warnings.warn(message, DeprecationWarning, stacklevel=find_stacklevel())`.
The `version` keyword argument is accepted but does not occur in the body,
hence never reaches the sink. -/
def issue_deprecation_warning (message : String) (version : String) : Emission :=
  Emission.warn message WarningCategory.deprecationWarning find_stacklevel

/-- Model of the first `deprecate_function` of `examples/callables.py`
(lines 43-60), whose decorator is annotated to return `Callable[P, T]`.
The inner `wrapper` first issues the deprecation warning built from the
original callable's `__qualname__` and the message, then delegates;
`@wraps(function)` copies the metadata and the explicit assignment of
`inspect.signature(function)` to the wrapper preserves the introspected
signature. -/
def deprecate_function_v1 (message : String) (version : String)
    (function : PyFunction α β) : PyFunction α β where
  qualname := function.qualname
  name := function.name
  doc := function.doc
  module := function.module
  signature := function.signature
  call := fun a =>
    let e := issue_deprecation_warning
      ("`" ++ function.qualname ++ "` is deprecated. " ++ message) version
    let p := function.call a
    (e :: p.1, p.2)

/-- Model of the second, shadowing `deprecate_function` of
`examples/callables.py` (lines 70-87), whose decorator is annotated to return
the qualified type; its body is textually identical to the first
definition. -/
def deprecate_function (message : String) (version : String)
    (function : PyFunction α β) : PyFunction α β where
  qualname := function.qualname
  name := function.name
  doc := function.doc
  module := function.module
  signature := function.signature
  call := fun a =>
    let e := issue_deprecation_warning
      ("`" ++ function.qualname ++ "` is deprecated. " ++ message) version
    let p := function.call a
    (e :: p.1, p.2)

/-- Model of `deprecate_renamed_function` of `examples/callables.py`: it
delegates to `deprecate_function` with the replacement-hint message built
from the new name.  (By the time it can be invoked, the module-level name
`deprecate_function` denotes the second definition.) -/
def deprecate_renamed_function (new_name : String) (version : String)
    (function : PyFunction α β) : PyFunction α β :=
  deprecate_function ("It has been renamed to `" ++ new_name ++ "`.") version function

/-- Model of the undecorated `my_function` of `examples/callables.py`
(lines 90-92): it adds its two integer arguments, emitting nothing. -/
def my_function_def : PyFunction (Int × Int) Int where
  qualname := "my_function"
  name := "my_function"
  doc := none
  module := "callables"
  signature :=
    { params :=
        [ { name := "a", kind := ParamKind.positionalOrKeyword,
            default := none, annot := some TypeExpr.intTy },
          { name := "b", kind := ParamKind.positionalOrKeyword,
            default := none, annot := some TypeExpr.intTy } ],
      retAnnot := some TypeExpr.intTy }
  call := fun p => ([], Except.ok (p.1 + p.2))

/-- Model of the decorated `my_function` as bound at module level in
`examples/callables.py`. -/
def my_function : PyFunction (Int × Int) Int :=
  deprecate_function "Use `my_function` instead." "0.20.4" my_function_def

/-- A sample callable used as a concrete input in witnesses: it raises
`ValueError("boom")` and emits nothing. -/
def raising_function : PyFunction Unit Int where
  qualname := "raising_function"
  name := "raising_function"
  doc := none
  module := "callables"
  signature := { params := [], retAnnot := some TypeExpr.intTy }
  call := fun _ => ([], Except.error (PyError.exn "ValueError" "boom"))

/-- Model of `deprecate_func` of `examples/factories.py`: it returns its
argument unchanged (deprecation is expressed only in the return
annotation). -/
def deprecate_func (func : PyFunction α β) : PyFunction α β := func

/-- Model of `deprecate_func_2` of `examples/factories.py`: the generic
identity on any construct bounded by a callable type. -/
def deprecate_func_2 (func : T) : T := func

/-- Model of `actual_deprecator` of `examples/factories.py`: the returned
`decorator` first prints "This function is deprecated." and then delegates to
the wrapped construct with the same arguments, returning its result
unchanged.  In the example it is applied to the class `MyClass`, so the
delegated behavior is construction. -/
def actual_deprecator (func : α → List Emission × Except PyError γ) :
    α → List Emission × Except PyError γ :=
  fun a =>
    let p := func a
    (Emission.stdout "This function is deprecated." :: p.1, p.2)

/-- A runtime object: the name of its class and its attribute dictionary. -/
structure Obj where
  cls : String
  attrs : List (String × PyValue)
deriving DecidableEq, Repr

/-- A Python class as the class wrapper sees it: its name and its
construction behavior. -/
structure PyClass (α : Type) where
  name : String
  construct : α → List Emission × Except PyError Obj

/-- Model of `MyClass` of `examples/factories.py`: an empty class whose
construction emits nothing and yields a fresh genuine instance of
`MyClass`. -/
def MyClass : PyClass Unit where
  name := "MyClass"
  construct := fun _ => ([], Except.ok { cls := "MyClass", attrs := [] })

/-- The fragment of Python runtime objects that subscription of `Deprecated`
manipulates: bare class objects (such as `int`), parameterized generic
aliases (such as `Annotated[int, str]` or `Callable[P, T]`), and the tuples
the interpreter passes as `params` for a multi-argument subscription. -/
inductive PyObj where
  | classObj (name : String)
  | genericAlias (origin : String) (args : List PyObj)
  | tupleObj (elems : List PyObj)

/-- Integer subscription `obj[i]` on the objects of `PyObj`: a tuple indexes
its elements and raises `IndexError` out of range; a bare class object raises
`TypeError` (as `int[0]` does in Python), and a fully parameterized alias
likewise does not support integer subscription. -/
def getitem : PyObj → Nat → Except PyError PyObj
  | PyObj.tupleObj xs, i =>
      match xs[i]? with
      | some x => Except.ok x
      | none => Except.error (PyError.indexError "tuple index out of range")
  | PyObj.classObj _, _ =>
      Except.error (PyError.typeError "type object is not subscriptable")
  | PyObj.genericAlias _ _, _ =>
      Except.error (PyError.typeError "alias does not support integer subscription")

/-- Model of `Deprecated.__class_getitem__` of
`examples/typing_deprecated.py`: the body is
`return Annotated[params[0], params[1]]`, so both integer subscriptions of
`params` are evaluated and the `Annotated` alias is built from the two
results. -/
def Deprecated.__class_getitem__ (params : PyObj) : Except PyError PyObj := do
  let a ← getitem params 0
  let b ← getitem params 1
  return PyObj.genericAlias "Annotated" [a, b]

/-- Deprecation metadata attached to a declaration: message, version and
optional replacement name. -/
structure DeprecationMarker where
  message : String
  version : String
  replacement : Option String
deriving DecidableEq, Repr

/-- A qualified type: the inner type paired with its deprecation marker. -/
structure QualifiedType where
  inner : TypeExpr
  marker : DeprecationMarker
deriving DecidableEq, Repr

/-- The placement shapes a legal qualifier application can take. -/
inductive PlacementShape where
  | ValueQualifier
  | ReturnWrapper
  | ParameterQualifier
  | OverloadSelector
deriving DecidableEq, Repr

/-- The static validation errors of the placement rules. -/
inductive ValidationError where
  | InferenceError
  | OrderingError
  | IllegalReturnQualifier
  | MissingDefaultError
  | AllOverloadsDeprecated
deriving DecidableEq, Repr

/-- Syntactic role of the declaration carrying the qualifier: a return type,
a parameter (with or without a default value), a plain value declaration, or
one member of an overload group (with or without a non-deprecated
sibling). -/
inductive Role where
  | returnPos
  | parameterPos (hasDefault : Bool)
  | valuePos
  | overloadMember (siblingNotDeprecated : Bool)
deriving DecidableEq, Repr

/-- Modelled from the spec: the is-invocable test of the Placement Validator
(no implementation exists under `src/`) — an inner type is invocable when it
is a callable type, a class/type-object reference, or a type parameter whose
declared upper bound is itself invocable. -/
def isInvocable : TypeExpr → Bool
  | TypeExpr.callableTy _ => true
  | TypeExpr.typeObj _ => true
  | TypeExpr.typeVarBounded _ b => isInvocable b
  | _ => false

/-- Modelled from the spec: the Placement Validator (no implementation
exists under `src/`; `examples/invalid.py` only lists declarations with the
expected verdicts in comments).  A return-position qualifier requires an
invocable inner type and otherwise fails with `IllegalReturnQualifier`; a
parameter-position qualifier requires a default value; a plain value
declaration is always legal; a member of an overload group requires a
non-deprecated sibling. -/
def validatePlacement (role : Role) (q : QualifiedType) :
    Except ValidationError PlacementShape :=
  match role with
  | Role.returnPos =>
      if isInvocable q.inner then Except.ok PlacementShape.ReturnWrapper
      else Except.error ValidationError.IllegalReturnQualifier
  | Role.parameterPos hasDefault =>
      if hasDefault then Except.ok PlacementShape.ParameterQualifier
      else Except.error ValidationError.MissingDefaultError
  | Role.valuePos => Except.ok PlacementShape.ValueQualifier
  | Role.overloadMember sib =>
      if sib then Except.ok PlacementShape.OverloadSelector
      else Except.error ValidationError.AllOverloadsDeprecated

/-- C1: for every callable `f` (itself emitting no signals), message, version
and argument on which `f` succeeds, the callable wrapped by
`deprecate_function` emits exactly one deprecation signal — the warning built
from the qualified name and the message — and then returns a value identical
to the one the unwrapped callable returns. -/
theorem c1_wrapped_call_succeeds (message version : String)
    (f : PyFunction α β) (a : α) (val : β)
    (h : f.call a = ([], Except.ok val)) :
    (deprecate_function message version f).call a =
      ([Emission.warn ("`" ++ f.qualname ++ "` is deprecated. " ++ message)
          WarningCategory.deprecationWarning find_stacklevel],
        Except.ok val) := by
  simp [deprecate_function, issue_deprecation_warning, h]

/-- Witness for C1: the undecorated `my_function` succeeds on `(1, 2)` with
result `3`, and the wrapped call emits the single expected warning and
returns `3`. -/
theorem c1_wrapped_call_succeeds_witness :
    my_function_def.call (1, 2) = ([], Except.ok 3) ∧
    (deprecate_function "Use `my_function` instead." "0.20.4" my_function_def).call (1, 2) =
      ([Emission.warn "`my_function` is deprecated. Use `my_function` instead."
          WarningCategory.deprecationWarning find_stacklevel],
        Except.ok 3) :=
  ⟨rfl, c1_wrapped_call_succeeds "Use `my_function` instead." "0.20.4"
    my_function_def (1, 2) 3 rfl⟩

/-- C2: for every callable `f` (itself emitting no signals), message, version
and argument on which `f` raises, the callable wrapped by
`deprecate_function` raises the identical failure — same kind and payload —
with exactly one signal emitted before the failure and the failure
propagated unchanged to the caller. -/
theorem c2_wrapped_call_propagates_failure (message version : String)
    (f : PyFunction α β) (a : α) (e : PyError)
    (h : f.call a = ([], Except.error e)) :
    (deprecate_function message version f).call a =
      ([Emission.warn ("`" ++ f.qualname ++ "` is deprecated. " ++ message)
          WarningCategory.deprecationWarning find_stacklevel],
        Except.error e) := by
  simp [deprecate_function, issue_deprecation_warning, h]

/-- Witness for C2: `raising_function` raises `ValueError("boom")`, and its
wrapped call emits the single expected warning and raises the identical
failure. -/
theorem c2_wrapped_call_propagates_failure_witness :
    raising_function.call () = ([], Except.error (PyError.exn "ValueError" "boom")) ∧
    (deprecate_function "Use something else." "1.0" raising_function).call () =
      ([Emission.warn "`raising_function` is deprecated. Use something else."
          WarningCategory.deprecationWarning find_stacklevel],
        Except.error (PyError.exn "ValueError" "boom")) :=
  ⟨rfl, c2_wrapped_call_propagates_failure "Use something else." "1.0"
    raising_function () (PyError.exn "ValueError" "boom") rfl⟩

/-- C3 (code behavior at the failing input): applying the qualifier to the
single type argument `int` — so that `params` is the bare class `int` — makes
the body `Annotated[params[0], params[1]]` raise `TypeError` instead of
producing a qualified type with inner type `int`; only a two-component
subscription such as `Deprecated[int, str]` succeeds, and its result is built
from both components. -/
theorem c3_class_getitem_single_argument_raises :
    Deprecated.__class_getitem__ (PyObj.classObj "int") =
      Except.error (PyError.typeError "type object is not subscriptable") ∧
    Deprecated.__class_getitem__
        (PyObj.tupleObj [PyObj.classObj "int", PyObj.classObj "str"]) =
      Except.ok (PyObj.genericAlias "Annotated"
        [PyObj.classObj "int", PyObj.classObj "str"]) :=
  ⟨rfl, rfl⟩

/-- C4: every call of a callable wrapped by `deprecate_function` emits first
the warning whose message is the qualified name in backticks followed by
" is deprecated. " and the marker message; and when the wrapper is built by
`deprecate_renamed_function new_name`, the marker message is exactly the
replacement hint naming `new_name`. -/
theorem c4_warning_message_format (message version new_name : String)
    (f : PyFunction α β) (a : α) :
    ((deprecate_function message version f).call a).1 =
      Emission.warn ("`" ++ f.qualname ++ "` is deprecated. " ++ message)
        WarningCategory.deprecationWarning find_stacklevel :: (f.call a).1 ∧
    ((deprecate_renamed_function new_name version f).call a).1 =
      Emission.warn ("`" ++ f.qualname ++ "` is deprecated. "
          ++ ("It has been renamed to `" ++ new_name ++ "`."))
        WarningCategory.deprecationWarning find_stacklevel :: (f.call a).1 :=
  ⟨rfl, rfl⟩

/-- C5 counterexample: two emissions that differ only in the version argument
are bit-identical deliveries to the sink, although the versions differ — so
the delivered signal cannot carry a tag equal to the version it was built
with. -/
theorem c5_version_dropped_counterexample :
    issue_deprecation_warning "`my_function` is deprecated. Use `my_function` instead." "1.0" =
      issue_deprecation_warning "`my_function` is deprecated. Use `my_function` instead." "2.0" ∧
    ("1.0" : String) ≠ "2.0" :=
  ⟨rfl, by decide⟩

/-- C5 (amended): the signal delivered to the sink carries the built message,
the `DeprecationWarning` category and a stacklevel; the version argument is
accepted by `issue_deprecation_warning` but never forwarded, so wrapped calls
built with different versions deliver identical signals. -/
theorem c5_version_dropped (message version version' : String)
    (f : PyFunction α β) (a : α) :
    (deprecate_function message version f).call a =
      (deprecate_function message version' f).call a ∧
    issue_deprecation_warning message version =
      Emission.warn message WarningCategory.deprecationWarning find_stacklevel :=
  ⟨rfl, rfl⟩

/-- C6: the callable wrapped by `deprecate_function` is introspectively
identical to the original — signature (parameter names, kinds, defaults,
annotated types and return), qualified name, name, docstring and module are
all preserved — and its call behavior is exactly the original behavior with
the single emission step interposed in front. -/
theorem c6_wrapper_preserves_introspection (message version : String)
    (f : PyFunction α β) :
    (deprecate_function message version f).signature = f.signature ∧
    (deprecate_function message version f).qualname = f.qualname ∧
    (deprecate_function message version f).name = f.name ∧
    (deprecate_function message version f).doc = f.doc ∧
    (deprecate_function message version f).module = f.module ∧
    ∀ a : α, (deprecate_function message version f).call a =
      (issue_deprecation_warning
          ("`" ++ f.qualname ++ "` is deprecated. " ++ message) version
        :: (f.call a).1, (f.call a).2) :=
  ⟨rfl, rfl, rfl, rfl, rfl, fun _ => rfl⟩

/-- C7: a return-position qualifier validates to `ReturnWrapper` exactly when
its inner type is invocable, and fails with `IllegalReturnQualifier` exactly
when it is not; in particular `Deprecated[int]` in return position is
rejected, while a callable inner type, a type variable bounded by a callable
type, and a type variable bounded by a class-object type are accepted. -/
theorem c7_return_qualifier_rule :
    (∀ q : QualifiedType,
      (validatePlacement Role.returnPos q = Except.ok PlacementShape.ReturnWrapper ↔
        isInvocable q.inner = true) ∧
      (validatePlacement Role.returnPos q =
          Except.error ValidationError.IllegalReturnQualifier ↔
        isInvocable q.inner = false)) ∧
    ∀ m : DeprecationMarker,
      validatePlacement Role.returnPos { inner := TypeExpr.intTy, marker := m } =
        Except.error ValidationError.IllegalReturnQualifier ∧
      validatePlacement Role.returnPos
          { inner := TypeExpr.callableTy TypeExpr.intTy, marker := m } =
        Except.ok PlacementShape.ReturnWrapper ∧
      validatePlacement Role.returnPos
          { inner := TypeExpr.typeVarBounded "T" (TypeExpr.callableTy TypeExpr.intTy),
            marker := m } =
        Except.ok PlacementShape.ReturnWrapper ∧
      validatePlacement Role.returnPos
          { inner := TypeExpr.typeVarBounded "_T_T" (TypeExpr.typeObj TypeExpr.anyTy),
            marker := m } =
        Except.ok PlacementShape.ReturnWrapper := by
  constructor
  · intro q
    cases h : isInvocable q.inner <;> simp [validatePlacement, h]
  · intro m
    exact ⟨rfl, rfl, rfl, rfl⟩

/-- C8: for every class `K` whose unwrapped construction succeeds with no
emission, constructing through the wrapper produced by `actual_deprecator`
emits exactly one signal and then returns the very object that unwrapped
construction yields — a genuine instance of `K`, not a subclass or proxy,
indistinguishable from unwrapped construction. -/
theorem c8_class_wrapping_roundtrip (K : PyClass α) (a : α) (o : Obj)
    (h : K.construct a = ([], Except.ok o)) :
    actual_deprecator K.construct a =
      ([Emission.stdout "This function is deprecated."], Except.ok o) := by
  simp [actual_deprecator, h]

/-- Witness for C8: constructing the wrapped `MyClass` emits exactly one
signal and returns the genuine `MyClass` instance. -/
theorem c8_class_wrapping_roundtrip_witness :
    MyClass.construct () = ([], Except.ok { cls := "MyClass", attrs := [] }) ∧
    actual_deprecator MyClass.construct () =
      ([Emission.stdout "This function is deprecated."],
        Except.ok { cls := "MyClass", attrs := [] }) :=
  ⟨rfl, c8_class_wrapping_roundtrip MyClass () { cls := "MyClass", attrs := [] } rfl⟩

/-- C9: the annotation-only deprecators `deprecate_func` and
`deprecate_func_2` are the identity — they return their argument itself
unchanged, so the returned construct calls exactly like the original and
emits no signal beyond what the original emits. -/
theorem c9_identity_deprecators (f : PyFunction α β) (g : T) (a : α) :
    deprecate_func f = f ∧ deprecate_func_2 g = g ∧
    (deprecate_func f).call a = f.call a :=
  ⟨rfl, rfl, rfl⟩

/-- C10: the two successive source definitions of `deprecate_function` are
behaviorally equivalent — for every message, version and callable they
produce the same wrapper, so in particular every call emits the same signal
and returns or raises the same result. -/
theorem c10_shadowed_definitions_agree (message version : String)
    (f : PyFunction α β) (a : α) :
    deprecate_function_v1 message version f = deprecate_function message version f ∧
    (deprecate_function_v1 message version f).call a =
      (deprecate_function message version f).call a :=
  ⟨rfl, rfl⟩
